import Mathlib

/-!
Shallow embedding of the authentication & session-lifecycle subsystem of
nova-writers-conspiracy (backend/app): `app/core/config.py`,
`app/services/auth.py` (class `AuthService`), the endpoint handlers in
`app/api/v1/endpoints/auth.py`, and the ORM rows of `app/models/user.py`.

Conventions of the embedding:
* Instants are `Nat` (seconds).  Each Python call to `datetime.utcnow()`
  inside one operation is modelled by the single `now` parameter of that
  operation; `timedelta(minutes=m)` is `m * 60` seconds and
  `timedelta(days=d)` is `d * 86400` seconds.
* A JWT produced by `jose.jwt.encode(payload, key, algorithm)` is modelled
  as the structure `Token` carrying its claim set, the signing key and the
  algorithm; `jose.jwt.decode` succeeds exactly when the key and algorithm
  match and the `exp` claim is not in the past (python-jose raises
  `ExpiredSignatureError`, a subclass of `JWTError`, when `exp < now`).
  Compact JWT serialisation is injective on (claims, key, algorithm), so
  structural equality of `Token` models string equality of encoded tokens.
* The async database session is modelled by explicit state passing on `DB`
  (the lists of `users` and `user_sessions` rows); SQLAlchemy row mutation
  plus commit is replacement of the row in the list.
* `passlib`'s `pwd_context.verify` is an external collaborator and is
  passed in as an opaque function `verify : String → String → Bool`.
-/

namespace Nova

/-- Environment variables read by pydantic `BaseSettings` (`.env`): only the
seven settings that `config.py` declares without a default and that
`validate_settings` later re-checks.  `none` = variable absent. -/
structure RawEnv where
  SECRET_KEY : Option String
  DATABASE_URL : Option String
  REDIS_URL : Option String
  OPENAI_API_KEY : Option String
  PINECONE_API_KEY : Option String
  PINECONE_ENVIRONMENT : Option String
  SERPER_API_KEY : Option String
deriving DecidableEq, Repr

/-- Settings of `app/core/config.py`: the fields this subsystem reads.
`JWT_ALGORITHM`, `ACCESS_TOKEN_EXPIRE_MINUTES` and
`REFRESH_TOKEN_EXPIRE_DAYS` carry the source defaults. -/
structure Settings where
  SECRET_KEY : String
  DATABASE_URL : String
  REDIS_URL : String
  OPENAI_API_KEY : String
  PINECONE_API_KEY : String
  PINECONE_ENVIRONMENT : String
  SERPER_API_KEY : String
  JWT_ALGORITHM : String := "HS256"
  ACCESS_TOKEN_EXPIRE_MINUTES : Nat := 30
  REFRESH_TOKEN_EXPIRE_DAYS : Nat := 7
deriving DecidableEq, Repr

/-- Construction `Settings()` at `config.py:113`: pydantic raises a `ValidationError`
(uncaught, hence fatal at import) iff one of the seven no-default fields is
absent from the environment.  An *empty* value is a present string and
passes this stage. -/
def settings_load (env : RawEnv) : Except String Settings :=
  match env.SECRET_KEY, env.DATABASE_URL, env.REDIS_URL, env.OPENAI_API_KEY,
        env.PINECONE_API_KEY, env.PINECONE_ENVIRONMENT, env.SERPER_API_KEY with
  | some sk, some du, some ru, some oa, some pk, some pe, some sp =>
      .ok { SECRET_KEY := sk, DATABASE_URL := du, REDIS_URL := ru,
            OPENAI_API_KEY := oa, PINECONE_API_KEY := pk,
            PINECONE_ENVIRONMENT := pe, SERPER_API_KEY := sp }
  | _, _, _, _, _, _, _ => .error "ValidationError"

/-- Source of `validate_settings` (`config.py:117-135`): collects the required
settings whose value is falsy (for `str` fields: the empty string) and
raises `ValueError` when any is missing. -/
def validate_settings (s : Settings) : Except String Unit :=
  let missing_settings :=
    (([("SECRET_KEY", s.SECRET_KEY), ("DATABASE_URL", s.DATABASE_URL),
       ("REDIS_URL", s.REDIS_URL), ("OPENAI_API_KEY", s.OPENAI_API_KEY),
       ("PINECONE_API_KEY", s.PINECONE_API_KEY),
       ("PINECONE_ENVIRONMENT", s.PINECONE_ENVIRONMENT),
       ("SERPER_API_KEY", s.SERPER_API_KEY)] :
       List (String × String)).filter (fun p => p.2 = "")).map (·.1)
  if missing_settings.isEmpty then .ok () else
    .error ("Missing required settings: " ++ String.intercalate ", " missing_settings)

/-- Outcome of importing `app.core.config`: either the import raises and
the process refuses to start (`fatal`), or the process keeps running
(`running warned`, where `warned` records whether the `except ValueError`
handler at `config.py:139-144` printed its configuration-error messages). -/
inductive StartupOutcome where
  | fatal
  | running (warned : Bool)
deriving DecidableEq, Repr

/-- Module-level code of `config.py`: `settings = Settings()` (uncaught on
failure), then `try: validate_settings() except ValueError: print(...)` —
the `ValueError` is caught and only printed, and execution continues. -/
def config_import (env : RawEnv) : StartupOutcome :=
  match settings_load env with
  | .error _ => .fatal
  | .ok s =>
    match validate_settings s with
    | .error _ => .running true
    | .ok _ => .running false

/-- JWT claim set as built by `create_access_token` / `create_refresh_token`:
the caller's `data` dict (always `{"sub": username}` in the endpoints, and
possibly lacking `sub` for an arbitrary caller) updated with `exp` and
`type`. -/
structure Claims where
  sub : Option String
  exp : Nat
  type : String
deriving DecidableEq, Repr

/-- A signed JWT: `jose.jwt.encode(claims, key, algorithm)`.  The compact
string is injective on these three components, so the structure stands for
the encoded token string. -/
structure Token where
  claims : Claims
  key : String
  alg : String
deriving DecidableEq, Repr

inductive JWTError where
  | invalid
  | expiredSignature
deriving DecidableEq, Repr

/-- Semantics of `jose.jwt.decode(token, key, algorithms=[alg])`: signature/algorithm
mismatch raises `JWTError`; `exp < now` raises `ExpiredSignatureError`
(also a `JWTError`); otherwise the claim payload is returned.  Note that
`decode` never inspects the `type` claim. -/
def jwt_decode (tok : Token) (key : String) (alg : String) (now : Nat) :
    Except JWTError Claims :=
  if tok.key = key ∧ tok.alg = alg then
    if tok.claims.exp < now then .error .expiredSignature
    else .ok tok.claims
  else .error .invalid

/-- Payload dict passed to the token builders (`{"sub": user.username}` in
the endpoints; `sub` optional because the builders copy whatever dict they
are given). -/
structure TokenData where
  sub : Option String
deriving DecidableEq, Repr

/-- Embedding of `AuthService.create_access_token` (`services/auth.py:33-44`). -/
def create_access_token (st : Settings) (data : TokenData)
    (expires_delta : Option Nat) (now : Nat) : Token :=
  let expire :=
    match expires_delta with
    | some d => now + d
    | none => now + st.ACCESS_TOKEN_EXPIRE_MINUTES * 60
  { claims := { sub := data.sub, exp := expire, type := "access" },
    key := st.SECRET_KEY, alg := st.JWT_ALGORITHM }

/-- Embedding of `AuthService.create_refresh_token` (`services/auth.py:46-57`). -/
def create_refresh_token (st : Settings) (data : TokenData)
    (expires_delta : Option Nat) (now : Nat) : Token :=
  let expire :=
    match expires_delta with
    | some d => now + d
    | none => now + st.REFRESH_TOKEN_EXPIRE_DAYS * 86400
  { claims := { sub := data.sub, exp := expire, type := "refresh" },
    key := st.SECRET_KEY, alg := st.JWT_ALGORITHM }

/-- Row of `users` (`models/user.py` class `User`): the fields this subsystem
reads or writes.  Profile/preference columns not touched by the
authentication flows are omitted. -/
structure User where
  id : Nat
  username : String
  email : String
  hashed_password : String
  last_login : Option Nat
deriving DecidableEq, Repr

/-- Row of `user_sessions` (`models/user.py` class `UserSession`). -/
structure UserSession where
  id : Nat
  user_id : Nat
  session_token : Token
  refresh_token : Option Token
  user_agent : Option String
  ip_address : Option String
  is_active : Bool
  created_at : Nat
  expires_at : Nat
  last_used : Nat
deriving DecidableEq, Repr

/-- The relational store: the two tables, plus the next autoincrement id
for `user_sessions`. -/
structure DB where
  users : List User
  sessions : List UserSession
  next_session_id : Nat
deriving DecidableEq, Repr

/-- Embedding of `AuthService.get_user_by_username` (`services/auth.py:65-69`):
`SELECT ... WHERE users.username == username`, `scalar_one_or_none`
(username has a unique constraint, so first match is the match). -/
def get_user_by_username (db : DB) (username : String) : Option User :=
  db.users.find? (fun u => decide (u.username = username))

/-- Embedding of `AuthService.get_user_by_email` (`services/auth.py:59-63`). -/
def get_user_by_email (db : DB) (email : String) : Option User :=
  db.users.find? (fun u => decide (u.email = email))

/-- Embedding of `AuthService.get_user_by_id` (`services/auth.py:71-75`). -/
def get_user_by_id (db : DB) (user_id : Nat) : Option User :=
  db.users.find? (fun u => decide (u.id = user_id))

/-- Embedding of `AuthService.authenticate_user` (`services/auth.py:77-91`): lookup by
username, falling back to email only when the username lookup found
nothing, then password verification; `None` on either failure. -/
def authenticate_user (verify : String → String → Bool) (db : DB)
    (username password : String) : Option User :=
  let user :=
    match get_user_by_username db username with
    | some u => some u
    | none => get_user_by_email db username
  match user with
  | none => none
  | some user =>
    if verify password user.hashed_password then some user else none

/-- Embedding of `AuthService.create_user_session` (`services/auth.py:112-139`): computes
both expiry instants but stores only the refresh one; `is_active` and the
timestamp columns take their model defaults at insert. -/
def create_user_session (st : Settings) (db : DB) (user_id : Nat)
    (access_token refresh_tok : Token)
    (user_agent ip_address : Option String) (now : Nat) :
    UserSession × DB :=
  let _access_expires := now + st.ACCESS_TOKEN_EXPIRE_MINUTES * 60
  let refresh_expires := now + st.REFRESH_TOKEN_EXPIRE_DAYS * 86400
  let session : UserSession :=
    { id := db.next_session_id, user_id := user_id,
      session_token := access_token, refresh_token := some refresh_tok,
      user_agent := user_agent, ip_address := ip_address,
      is_active := true, created_at := now,
      expires_at := refresh_expires, last_used := now }
  (session, { db with
              sessions := db.sessions ++ [session],
              next_session_id := db.next_session_id + 1 })

/-- Embedding of `AuthService.get_user_session` (`services/auth.py:141-150`):
`SELECT ... WHERE user_sessions.session_token == token AND
user_sessions.is_active == True`, `scalar_one_or_none` (`session_token`
has a unique constraint).  The query filters on neither `refresh_token`
nor `expires_at`, and a `SELECT` mutates nothing. -/
def get_user_session (db : DB) (session_token : Token) : Option UserSession :=
  db.sessions.find? (fun s => decide (s.session_token = session_token) && s.is_active)

/-- Embedding of `AuthService.invalidate_user_sessions` (`services/auth.py:152-166`):
selects the rows with `user_id == user_id and is_active == True`, sets
`is_active = False` on each, commits.  The Python function is annotated
`-> None` and has no `return`, so its value is `None`; the second
component below is that return value (`some count` would be a returned
count, `none` is Python's `None`). -/
def invalidate_user_sessions (db : DB) (user_id : Nat) : DB × Option Nat :=
  ({ db with sessions := db.sessions.map (fun s =>
      if s.user_id = user_id ∧ s.is_active then { s with is_active := false } else s) },
   none)

/-- Embedding of `AuthService.invalidate_session` (`services/auth.py:168-176`):
`get_user_session`, then flip that row's flag if found. -/
def invalidate_session (db : DB) (session_token : Token) : DB × Bool :=
  match get_user_session db session_token with
  | some session =>
    ({ db with sessions := db.sessions.map (fun s =>
        if s.id = session.id then { s with is_active := false } else s) }, true)
  | none => (db, false)

/-- Embedding of `AuthService.update_session_activity` (`services/auth.py:178-184`). -/
def update_session_activity (db : DB) (session_token : Token) (now : Nat) : DB :=
  match get_user_session db session_token with
  | some session =>
    { db with sessions := db.sessions.map (fun s =>
        if s.id = session.id then { s with last_used := now } else s) }
  | none => db

/-- Embedding of `AuthService.cleanup_expired_sessions` (`services/auth.py:186-203`):
selects `expires_at < now and is_active == True`, flips each selected row
and counts it in a loop, commits, returns the count. -/
def cleanup_expired_sessions (db : DB) (now : Nat) : DB × Nat :=
  let expired_sessions :=
    db.sessions.filter (fun s => decide (s.expires_at < now) && s.is_active)
  let db2 :=
    { db with sessions := db.sessions.map (fun s =>
        if s.expires_at < now ∧ s.is_active then { s with is_active := false } else s) }
  (db2, expired_sessions.foldl (fun count _ => count + 1) 0)

/-- Error `fastapi.HTTPException` as raised by the auth endpoints: status code and
detail string. -/
structure HTTPError where
  status_code : Nat
  detail : String
deriving DecidableEq, Repr

/-- Public user record (`UserResponse(**user.to_dict())`): the subset of the
embedded `User` row it exposes. -/
structure UserResponse where
  id : Nat
  username : String
  email : String
  last_login : Option Nat
deriving DecidableEq, Repr

def User.to_response (u : User) : UserResponse :=
  { id := u.id, username := u.username, email := u.email, last_login := u.last_login }

/-- Response model `TokenResponse` (`schemas/auth.py`). -/
structure TokenResponse where
  access_token : Token
  refresh_token : Token
  token_type : String
  user : UserResponse
deriving DecidableEq, Repr

/-- Embedding of `get_current_user` (`endpoints/auth.py:31-60`): decode the bearer token
(signature + expiry only — `jwt.decode` never reads the `type` claim and no
session query occurs), require a `sub` claim, then resolve the user by
username; any failure is the one `credentials_exception`
(401, "Could not validate credentials"). -/
def get_current_user (st : Settings) (db : DB) (tok : Token) (now : Nat) :
    Except HTTPError User :=
  let credentials_exception : HTTPError :=
    { status_code := 401, detail := "Could not validate credentials" }
  match jwt_decode tok st.SECRET_KEY st.JWT_ALGORITHM now with
  | .error _ => .error credentials_exception
  | .ok payload =>
    match payload.sub with
    | none => .error credentials_exception
    | some username =>
      match get_user_by_username db username with
      | none => .error credentials_exception
      | some user => .ok user

/-- Embedding of `login` (`endpoints/auth.py:89-130`): authenticate, update `last_login`,
mint the token pair, create the session, assemble the response.  The single
failure outcome is 401 "Incorrect username or password". -/
def login (verify : String → String → Bool) (st : Settings) (db : DB)
    (username password : String) (user_agent ip_address : Option String)
    (now : Nat) : Except HTTPError (TokenResponse × DB) :=
  match authenticate_user verify db username password with
  | none => .error { status_code := 401, detail := "Incorrect username or password" }
  | some user =>
    let db1 : DB :=
      { db with
        users := db.users.map (fun u =>
          if u.id = user.id then { u with last_login := some now } else u) }
    let user1 : User := { user with last_login := some now }
    let access_token :=
      create_access_token st { sub := some user.username }
        (some (st.ACCESS_TOKEN_EXPIRE_MINUTES * 60)) now
    let refresh_tok :=
      create_refresh_token st { sub := some user.username }
        (some (st.REFRESH_TOKEN_EXPIRE_DAYS * 86400)) now
    let (_, db2) :=
      create_user_session st db1 user.id access_token refresh_tok
        user_agent ip_address now
    .ok ({ access_token := access_token, refresh_token := refresh_tok,
           token_type := "bearer", user := user1.to_response }, db2)

/-- Embedding of the `refresh_token` endpoint (`endpoints/auth.py:133-176`): decode the given
token (signature + expiry only — the `type` claim is never compared against
`refresh`), require `sub`, resolve the user, mint a new access token, and
return it together with the *same* incoming token in the `refresh_token`
field. -/
def refresh (st : Settings) (db : DB) (refresh_tok : Token) (now : Nat) :
    Except HTTPError TokenResponse :=
  match jwt_decode refresh_tok st.SECRET_KEY st.JWT_ALGORITHM now with
  | .error _ => .error { status_code := 401, detail := "Invalid refresh token" }
  | .ok payload =>
    match payload.sub with
    | none => .error { status_code := 401, detail := "Invalid refresh token" }
    | some username =>
      match get_user_by_username db username with
      | none => .error { status_code := 401, detail := "User not found" }
      | some user =>
        let access_token :=
          create_access_token st { sub := some user.username }
            (some (st.ACCESS_TOKEN_EXPIRE_MINUTES * 60)) now
        .ok { access_token := access_token, refresh_token := refresh_tok,
              token_type := "bearer", user := user.to_response }

/-- Embedding of `logout` (`endpoints/auth.py:179-186`): resolve the bearer through
`get_current_user`, then `invalidate_user_sessions` for that user's id. -/
def logout (st : Settings) (db : DB) (tok : Token) (now : Nat) :
    Except HTTPError (String × DB) :=
  match get_current_user st db tok now with
  | .error e => .error e
  | .ok current_user =>
    let (db1, _) := invalidate_user_sessions db current_user.id
    .ok ("Successfully logged out", db1)

/-- Endpoint `/me` a.k.a. whoAmI (`endpoints/auth.py:189-192`): just
`get_current_user` rendered as the public record. -/
def whoami (st : Settings) (db : DB) (tok : Token) (now : Nat) :
    Except HTTPError UserResponse :=
  match get_current_user st db tok now with
  | .error e => .error e
  | .ok current_user => .ok current_user.to_response

/-- The operations of the subsystem that can touch the session table, for
stating state-machine invariants: login, refresh, logout, direct session
creation, single/bulk invalidation, activity touch, and expiry reaping. -/
inductive Op where
  | opLogin (verify : String → String → Bool)
      (username password : String) (user_agent ip_address : Option String) (now : Nat)
  | opRefresh (tok : Token) (now : Nat)
  | opLogout (tok : Token) (now : Nat)
  | opCreateSession (user_id : Nat) (access_token refresh_tok : Token)
      (user_agent ip_address : Option String) (now : Nat)
  | opInvalidateUser (user_id : Nat)
  | opInvalidateSession (tok : Token)
  | opTouch (tok : Token) (now : Nat)
  | opCleanup (now : Nat)

/-- State transition of one operation on the store (the endpoints that fail
leave the store unchanged, as the failing request commits nothing). -/
def apply_op (st : Settings) (op : Op) (db : DB) : DB :=
  match op with
  | .opLogin verify username password ua ip now =>
    match login verify st db username password ua ip now with
    | .ok (_, db1) => db1
    | .error _ => db
  | .opRefresh _ _ => db
  | .opLogout tok now =>
    match logout st db tok now with
    | .ok (_, db1) => db1
    | .error _ => db
  | .opCreateSession user_id at_ rt ua ip now =>
    (create_user_session st db user_id at_ rt ua ip now).2
  | .opInvalidateUser user_id => (invalidate_user_sessions db user_id).1
  | .opInvalidateSession tok => (invalidate_session db tok).1
  | .opTouch tok now => update_session_activity db tok now
  | .opCleanup now => (cleanup_expired_sessions db now).1

/-! Helper lemmas shared by the theorems below. -/

theorem List.getElem?_map_append_of {α : Type} (l : List α) (f : α → α)
    (tail : List α) (i : Nat) (s : α) (h : l[i]? = some s) :
    (l.map f ++ tail)[i]? = some (f s) := by
  induction l generalizing i with
  | nil => simp at h
  | cons a t ih =>
    cases i with
    | zero =>
      simp only [List.getElem?_cons_zero, Option.some.injEq] at h
      simp [h]
    | succ n =>
      simp only [List.getElem?_cons_succ] at h
      simpa using ih n h

theorem List.getElem?_append_left_of {α : Type} (l : List α) (tail : List α)
    (i : Nat) (s : α) (h : l[i]? = some s) : (l ++ tail)[i]? = some s := by
  have := List.getElem?_map_append_of l id tail i s h
  simpa using this

theorem List.find?_append_of_none {α : Type} (l₁ l₂ : List α) (p : α → Bool)
    (h : l₁.find? p = none) : (l₁ ++ l₂).find? p = l₂.find? p := by
  induction l₁ with
  | nil => simp
  | cons a t ih =>
    rw [List.find?_cons] at h
    cases hp : p a with
    | true => simp [hp] at h
    | false =>
      rw [hp] at h
      simp only [List.cons_append, List.find?_cons, hp]
      exact ih h

theorem List.foldl_count {α : Type} (l : List α) (n : Nat) :
    l.foldl (fun count _ => count + 1) n = n + l.length := by
  induction l generalizing n with
  | nil => simp
  | cons a t ih => simp [List.foldl_cons, ih, Nat.add_assoc, Nat.add_comm 1]

/-- Row correspondence used by the monotonicity invariants: the identifying
and expiry columns are unchanged and the `is_active` flag can only stay or
drop (true → false), never rise. -/
def RowMono (s s' : UserSession) : Prop :=
  s'.id = s.id ∧ s'.user_id = s.user_id ∧ s'.session_token = s.session_token ∧
  s'.refresh_token = s.refresh_token ∧ s'.created_at = s.created_at ∧
  s'.expires_at = s.expires_at ∧ (s'.is_active = true → s.is_active = true)

theorem RowMono.refl (s : UserSession) : RowMono s s :=
  ⟨rfl, rfl, rfl, rfl, rfl, rfl, fun h => h⟩

theorem RowMono.deactivate_if (c : UserSession → Prop) [DecidablePred c]
    (s : UserSession) :
    RowMono s (if c s then { s with is_active := false } else s) := by
  by_cases h : c s
  · simp only [if_pos h]
    exact ⟨rfl, rfl, rfl, rfl, rfl, rfl, fun h2 => by simp at h2⟩
  · simp only [if_neg h]
    exact RowMono.refl s

theorem RowMono.touch_if (c : UserSession → Prop) [DecidablePred c]
    (now : Nat) (s : UserSession) :
    RowMono s (if c s then { s with last_used := now } else s) := by
  by_cases h : c s
  · simp only [if_pos h]
    exact ⟨rfl, rfl, rfl, rfl, rfl, rfl, fun h2 => h2⟩
  · simp only [if_neg h]
    exact RowMono.refl s

theorem pointwise_map_mono (f : UserSession → UserSession)
    (hf : ∀ s, RowMono s (f s)) (l : List UserSession)
    (i : Nat) (s : UserSession) (h : l[i]? = some s) :
    ∃ s', (l.map f)[i]? = some s' ∧ RowMono s s' :=
  ⟨f s, by
    have := List.getElem?_map_append_of l f [] i s h
    simpa using this, hf s⟩

/-- On success `login` leaves the existing session rows untouched and
appends one new row. -/
theorem login_sessions (verify : String → String → Bool) (st : Settings)
    (db : DB) (username password : String) (ua ip : Option String) (now : Nat)
    (resp : TokenResponse) (db1 : DB)
    (h : login verify st db username password ua ip now = .ok (resp, db1)) :
    ∃ sess, db1.sessions = db.sessions ++ [sess] := by
  unfold login at h
  cases ha : authenticate_user verify db username password with
  | none => rw [ha] at h; exact absurd h (by simp)
  | some user =>
    rw [ha] at h
    simp only [create_user_session, Except.ok.injEq, Prod.mk.injEq] at h
    exact ⟨_, by rw [← h.2]⟩

/-- On success `logout` is exactly `invalidate_user_sessions` on the bearer's
user id. -/
theorem logout_sessions (st : Settings) (db : DB) (tok : Token) (now : Nat)
    (msg : String) (db1 : DB)
    (h : logout st db tok now = .ok (msg, db1)) :
    ∃ uid, db1 = (invalidate_user_sessions db uid).1 := by
  unfold logout at h
  cases hg : get_current_user st db tok now with
  | error e => rw [hg] at h; exact absurd h (by simp)
  | ok user =>
    rw [hg] at h
    simp only [invalidate_user_sessions, Except.ok.injEq, Prod.mk.injEq] at h
    exact ⟨user.id, by rw [← h.2]; rfl⟩

/-- Every operation maps each pre-existing session row (positionally) to a
row with the same identity and expiry whose active flag has not been
resurrected. -/
theorem apply_op_pointwise (st : Settings) (op : Op) (db : DB) (i : Nat)
    (s : UserSession) (h : db.sessions[i]? = some s) :
    ∃ s', (apply_op st op db).sessions[i]? = some s' ∧ RowMono s s' := by
  cases op with
  | opLogin verify username password ua ip now =>
    simp only [apply_op]
    cases hl : login verify st db username password ua ip now with
    | error e => exact ⟨s, h, RowMono.refl s⟩
    | ok pair =>
      obtain ⟨resp, db1⟩ := pair
      obtain ⟨sess, hs⟩ := login_sessions verify st db username password ua ip now resp db1 hl
      rw [hs]
      exact ⟨s, List.getElem?_append_left_of _ _ i s h, RowMono.refl s⟩
  | opRefresh tok now => exact ⟨s, h, RowMono.refl s⟩
  | opLogout tok now =>
    simp only [apply_op]
    cases hl : logout st db tok now with
    | error e => exact ⟨s, h, RowMono.refl s⟩
    | ok pair =>
      obtain ⟨msg, db1⟩ := pair
      obtain ⟨uid, hdb⟩ := logout_sessions st db tok now msg db1 hl
      rw [hdb]
      simp only [invalidate_user_sessions]
      exact pointwise_map_mono _
        (RowMono.deactivate_if (fun s => s.user_id = uid ∧ s.is_active)) db.sessions i s h
  | opCreateSession user_id at_ rt ua ip now =>
    simp only [apply_op, create_user_session]
    exact ⟨s, List.getElem?_append_left_of _ _ i s h, RowMono.refl s⟩
  | opInvalidateUser user_id =>
    simp only [apply_op, invalidate_user_sessions]
    exact pointwise_map_mono _
      (RowMono.deactivate_if (fun s => s.user_id = user_id ∧ s.is_active)) db.sessions i s h
  | opInvalidateSession tok =>
    simp only [apply_op, invalidate_session]
    cases hg : get_user_session db tok with
    | none => exact ⟨s, h, RowMono.refl s⟩
    | some session =>
      exact pointwise_map_mono _
        (RowMono.deactivate_if (fun s => s.id = session.id)) db.sessions i s h
  | opTouch tok now =>
    simp only [apply_op, update_session_activity]
    cases hg : get_user_session db tok with
    | none => exact ⟨s, h, RowMono.refl s⟩
    | some session =>
      exact pointwise_map_mono _
        (RowMono.touch_if (fun s => s.id = session.id) now) db.sessions i s h
  | opCleanup now =>
    simp only [apply_op, cleanup_expired_sessions]
    exact pointwise_map_mono _
      (RowMono.deactivate_if (fun s => s.expires_at < now ∧ s.is_active)) db.sessions i s h

/-! Concrete fixtures used by the scenario evaluations and witnesses. -/

/-- A concrete configuration (defaults: HS256, 30 min, 7 days). -/
def settingsW : Settings :=
  { SECRET_KEY := "k-secret", DATABASE_URL := "postgres://db", REDIS_URL := "redis://r",
    OPENAI_API_KEY := "oa", PINECONE_API_KEY := "pc", PINECONE_ENVIRONMENT := "pe",
    SERPER_API_KEY := "sp" }

/-- Stand-in for the external `passlib` verifier: a hash is the plaintext
tagged with a prefix (only the external collaborator, not repository
code, is abstracted here). -/
def demoVerify (plain hashed : String) : Bool :=
  decide (hashed = "bcrypt." ++ plain)

def alice : User :=
  { id := 1, username := "alice", email := "a@x.com",
    hashed_password := "bcrypt.Secretpw1", last_login := none }

def db0 : DB := { users := [alice], sessions := [], next_session_id := 1 }

/-- The access token minted by `login demoVerify settingsW db0 "alice" ...`
at instant 100: `exp = 100 + 30*60`. -/
def aTok1 : Token :=
  { claims := { sub := some "alice", exp := 1900, type := "access" },
    key := "k-secret", alg := "HS256" }

/-- The refresh token of the same login: `exp = 100 + 7*86400`. -/
def rTok1 : Token :=
  { claims := { sub := some "alice", exp := 604900, type := "refresh" },
    key := "k-secret", alg := "HS256" }

def alice1 : User := { alice with last_login := some 100 }

/-- The session row created by that login. -/
def sess1 : UserSession :=
  { id := 1, user_id := 1, session_token := aTok1, refresh_token := some rTok1,
    user_agent := none, ip_address := none, is_active := true,
    created_at := 100, expires_at := 604900, last_used := 100 }

/-- Store state right after the login. -/
def db1 : DB := { users := [alice1], sessions := [sess1], next_session_id := 2 }

/-- Store state right after the logout: the session flag is down. -/
def db2 : DB := { db1 with sessions := [{ sess1 with is_active := false }] }

/-- Environment rows for the startup claim: SECRET_KEY either present with
the given value or absent, every other required variable present and
non-empty. -/
def envWith (secret : Option String) : RawEnv :=
  { SECRET_KEY := secret, DATABASE_URL := some "postgres://db",
    REDIS_URL := some "redis://r", OPENAI_API_KEY := some "oa",
    PINECONE_API_KEY := some "pc", PINECONE_ENVIRONMENT := some "pe",
    SERPER_API_KEY := some "sp" }

/-- Claim C1: the spec says that after `logout(t)` a `whoAmI(t)` call must
fail `Unauthorized` because `currentUser` looks up the bound active
session.  Evaluating the code on the spec's own scenario: login("alice")
succeeds, whoAmI succeeds, logout succeeds and flips every session of
alice inactive — and whoAmI with the same access token *still succeeds*,
because `get_current_user` never consults the session table.  This theorem
exhibits the code's behaviour at that failing input. -/
theorem C1_whoami_succeeds_after_logout :
    (login demoVerify settingsW db0 "alice" "Secretpw1" none none 100 =
       .ok ({ access_token := aTok1, refresh_token := rTok1,
              token_type := "bearer", user := alice1.to_response }, db1)) ∧
    (whoami settingsW db1 aTok1 150 = .ok alice1.to_response) ∧
    (logout settingsW db1 aTok1 200 = .ok ("Successfully logged out", db2)) ∧
    (∀ s ∈ db2.sessions, s.is_active = false) ∧
    (whoami settingsW db2 aTok1 300 = .ok alice1.to_response) :=
  ⟨rfl, rfl, rfl, by decide, rfl⟩

/-- Claim C2: the spec requires the refresh operation to verify its input
with expected kind `refresh` and reject an `access`-kind token with
`TokenKindMismatch`.  Evaluating the code at the failing input: the token
minted with kind `access` (claim `type = "access"`) is *accepted* by the
refresh endpoint, which returns a fresh access token and echoes the
access token back in the `refresh_token` field — the endpoint never
compares the `type` claim. -/
theorem C2_refresh_accepts_access_kind_token :
    (aTok1.claims.type = "access") ∧
    (refresh settingsW db0 aTok1 200 =
       .ok { access_token := create_access_token settingsW { sub := some "alice" } (some 1800) 200,
             refresh_token := aTok1, token_type := "bearer", user := alice.to_response }) :=
  ⟨rfl, rfl⟩

/-- Claim C4: the spec says a missing or malformed signing key makes
startup fatal.  Evaluating the code: a *missing* `SECRET_KEY` variable is
indeed fatal (pydantic raises at `Settings()`), but with `SECRET_KEY`
present and empty, `validate_settings` raises `ValueError` and the
module-level handler at `config.py:139-144` catches it and only prints —
the process keeps running with an empty secret. -/
theorem C4_empty_secret_is_not_fatal :
    (config_import (envWith none) = .fatal) ∧
    (config_import (envWith (some "")) = .running true) ∧
    (config_import (envWith (some "")) ≠ .fatal) :=
  ⟨rfl, rfl, by decide⟩

/-- Claim C3 counterexample: the claim says `getActiveSession(t)` returns
`s` iff `t` equals the access-token *or refresh-token* reference, the flag
is up and `now ≤ expiresAt`.  Here `rTok1` is the refresh-token reference
of the only stored session, the session is active and unexpired, so the
claim demands the session be returned — but `get_user_session` filters on
`session_token` only and returns nothing. -/
theorem C3_counterexample_refresh_reference_ignored :
    (db1.sessions = [sess1]) ∧
    (sess1.refresh_token = some rTok1) ∧
    (sess1.is_active = true) ∧
    (150 ≤ sess1.expires_at) ∧
    (get_user_session db1 rTok1 = none) :=
  ⟨rfl, rfl, rfl, by decide, rfl⟩

/-- Claim C3, amended: `get_user_session db t` returns a session `s` only
when `s` is stored, `s.session_token = t` (the refresh-token reference is
never matched) and `s.is_active = true`; it returns nothing exactly when
no stored session matches on those two conditions.  Expiry is not
consulted at all (the function does not even take a clock), and the read
mutates nothing (it returns no updated store). -/
theorem C3_get_user_session_characterization (db : DB) (t : Token) :
    (∀ s, get_user_session db t = some s →
       s ∈ db.sessions ∧ s.session_token = t ∧ s.is_active = true) ∧
    (get_user_session db t = none ↔
       ∀ s, s ∈ db.sessions → ¬(s.session_token = t ∧ s.is_active = true)) := by
  constructor
  · intro s h
    have hm := List.mem_of_find?_eq_some h
    have hp := List.find?_some h
    simp only [Bool.and_eq_true, decide_eq_true_eq] at hp
    exact ⟨hm, hp.1, hp.2⟩
  · rw [get_user_session, List.find?_eq_none]
    constructor
    · intro h s hs
      have := h s hs
      simpa using this
    · intro h s hs
      have := h s hs
      simpa using this

/-- Claim C3 witness: the characterization applied to the stored access
token of the concrete post-login store. -/
theorem C3_witness :
    sess1 ∈ db1.sessions ∧ sess1.session_token = aTok1 ∧ sess1.is_active = true :=
  (C3_get_user_session_characterization db1 aTok1).1 sess1 rfl

/-- Claim C5 counterexample: in the post-login store exactly one active
session belongs to user 1, so the claim says `invalidateAll(1)` returns
the count 1 — but the Python function is `-> None` with no `return`
statement, so its value is `None` (modelled `none`), not a count. -/
theorem C5_counterexample_no_count_returned :
    ((db1.sessions.filter (fun s => decide (s.user_id = 1) && s.is_active)).length = 1) ∧
    ((invalidate_user_sessions db1 1).2 = none) ∧
    (∀ n : Nat, (invalidate_user_sessions db1 1).2 ≠ some n) :=
  ⟨by decide, rfl, fun _ h => Option.noConfusion h⟩

/-- Claim C5, amended: `invalidate_user_sessions db u` flips the active
flag to false for exactly the stored sessions owned by `u` (leaving id,
owner, token references and expiry unchanged) and returns `None` — no
count.  Afterwards `get_user_session` returns nothing for the access-token
reference of any session of `u` stored before the call (given the
registry's token-uniqueness constraint), while a session created for `u`
after the call, under a fresh token, is still retrievable. -/
theorem C5_invalidate_user_sessions_spec (st : Settings) (db : DB) (u : Nat) :
    ((invalidate_user_sessions db u).2 = none) ∧
    (∀ (i : Nat) (s s' : UserSession), db.sessions[i]? = some s →
       (invalidate_user_sessions db u).1.sessions[i]? = some s' →
       s'.is_active = (s.is_active && !(decide (s.user_id = u))) ∧
       s'.id = s.id ∧ s'.user_id = s.user_id ∧
       s'.session_token = s.session_token ∧ s'.expires_at = s.expires_at) ∧
    (∀ s, s ∈ db.sessions → s.user_id = u →
       (∀ s2, s2 ∈ db.sessions → s2.session_token = s.session_token → s2.user_id = u) →
       get_user_session (invalidate_user_sessions db u).1 s.session_token = none) ∧
    (∀ uid at_ rt ua ip now,
       (∀ s, s ∈ db.sessions → ¬ s.session_token = at_) →
       get_user_session
           (create_user_session st (invalidate_user_sessions db u).1 uid at_ rt ua ip now).2 at_ =
         some (create_user_session st (invalidate_user_sessions db u).1 uid at_ rt ua ip now).1) := by
  refine ⟨rfl, ?_, ?_, ?_⟩
  · intro i s s' h h2
    simp only [invalidate_user_sessions] at h2
    have h3 := List.getElem?_map_append_of db.sessions
      (fun s => if s.user_id = u ∧ s.is_active then { s with is_active := false } else s)
      [] i s h
    simp only [List.append_nil] at h3
    rw [h2] at h3
    injection h3 with h4
    subst h4
    by_cases hc : s.user_id = u ∧ s.is_active
    · simp [hc, hc.1, hc.2]
    · rw [if_neg hc]
      by_cases hu : s.user_id = u
      · have hact : ¬ s.is_active = true := fun ha => hc ⟨hu, ha⟩
        simp [hu, Bool.eq_false_iff.mpr hact]
      · simp [hu]
  · intro s hs hsu huniq
    simp only [invalidate_user_sessions]
    rw [get_user_session, List.find?_eq_none]
    intro x hx
    simp only [List.mem_map] at hx
    obtain ⟨s2, hs2, hfx⟩ := hx
    subst hfx
    simp only [Bool.and_eq_true, decide_eq_true_eq, not_and]
    intro htok
    by_cases hc : s2.user_id = u ∧ s2.is_active
    · simp [hc]
    · rw [if_neg hc] at htok ⊢
      have hu2 : s2.user_id = u := huniq s2 hs2 htok
      intro ha
      exact hc ⟨hu2, ha⟩
  · intro uid at_ rt ua ip now hfresh
    simp only [create_user_session, get_user_session]
    rw [List.find?_append_of_none]
    · simp
    · rw [List.find?_eq_none]
      intro x hx
      simp only [invalidate_user_sessions, List.mem_map] at hx
      obtain ⟨s2, hs2, hfx⟩ := hx
      subst hfx
      simp only [Bool.and_eq_true, decide_eq_true_eq, not_and]
      intro htok
      by_cases hc : s2.user_id = u ∧ s2.is_active
      · rw [if_pos hc] at htok
        exact absurd htok (hfresh s2 hs2)
      · rw [if_neg hc] at htok
        exact absurd htok (hfresh s2 hs2)

/-- Claim C5 witness: after `invalidate_user_sessions db1 1` the stored
access token of alice's pre-call session no longer resolves to a session. -/
theorem C5_witness :
    get_user_session (invalidate_user_sessions db1 1).1 aTok1 = none :=
  (C5_invalidate_user_sessions_spec settingsW db1 1).2.2.1 sess1 (by decide) rfl (by decide)

/-- Claim C6: `authenticate_user` resolves the identifier as a username
first (the email lookup is consulted only when no username matches), and
every failure — user not found by either lookup, or password verification
failed — makes the login endpoint return the one generic outcome
401 "Incorrect username or password", so the caller cannot tell which
check failed. -/
theorem C6_login_username_first_single_failure
    (verify : String → String → Bool) (db : DB) (ident pw : String) :
    (∀ u : User, get_user_by_username db ident = some u →
       authenticate_user verify db ident pw =
         (if verify pw u.hashed_password then some u else none)) ∧
    (get_user_by_username db ident = none →
       ∀ u : User, get_user_by_email db ident = some u →
         authenticate_user verify db ident pw =
           (if verify pw u.hashed_password then some u else none)) ∧
    (∀ (st : Settings) (ua ip : Option String) (now : Nat),
       authenticate_user verify db ident pw = none →
       login verify st db ident pw ua ip now =
         .error { status_code := 401, detail := "Incorrect username or password" }) := by
  refine ⟨?_, ?_, ?_⟩
  · intro u hu
    simp [authenticate_user, hu]
  · intro hn u he
    simp [authenticate_user, hn, he]
  · intro st ua ip now hn
    simp [login, hn]

/-- Claim C6 witness: a wrong password for an existing username produces
exactly the generic failure. -/
theorem C6_witness :
    login demoVerify settingsW db0 "alice" "wrongpw" none none 7 =
      .error { status_code := 401, detail := "Incorrect username or password" } :=
  (C6_login_username_first_single_failure demoVerify db0 "alice" "wrongpw").2.2
    settingsW none none 7 rfl

/-- Claim C7: the session active flag is monotonic.  Every operation of
the subsystem maps each pre-existing session row (same position, same id
and owner) to a row whose active flag either kept its value or dropped
from true to false; no operation resurrects an inactive session. -/
theorem C7_active_flag_monotonic (st : Settings) (op : Op) (db : DB)
    (i : Nat) (s s' : UserSession) (h : db.sessions[i]? = some s)
    (h2 : (apply_op st op db).sessions[i]? = some s') :
    s'.id = s.id ∧ s'.user_id = s.user_id ∧
    (s'.is_active = true → s.is_active = true) := by
  obtain ⟨s'', h3, hm⟩ := apply_op_pointwise st op db i s h
  rw [h2] at h3
  injection h3 with h4
  subst h4
  exact ⟨hm.1, hm.2.1, hm.2.2.2.2.2.2⟩

/-- Claim C7 witness: reaping the post-login store at a late instant flips
alice's session, and the flipped row keeps its identity with the flag
going true → false. -/
theorem C7_witness :
    ({ sess1 with is_active := false } : UserSession).id = sess1.id ∧
    ({ sess1 with is_active := false } : UserSession).user_id = sess1.user_id ∧
    (({ sess1 with is_active := false } : UserSession).is_active = true →
      sess1.is_active = true) :=
  C7_active_flag_monotonic settingsW (Op.opCleanup 700000) db1 0 sess1
    { sess1 with is_active := false } rfl rfl

def tokX : Token :=
  { claims := { sub := some "x", exp := 50, type := "access" },
    key := "k-secret", alg := "HS256" }

def tokY : Token :=
  { claims := { sub := some "y", exp := 50, type := "access" },
    key := "k-secret", alg := "HS256" }

/-- Active session that expires at instant 2. -/
def sExp1 : UserSession :=
  { id := 1, user_id := 7, session_token := tokX, refresh_token := none,
    user_agent := none, ip_address := none, is_active := true,
    created_at := 0, expires_at := 2, last_used := 0 }

/-- Active session that expires at instant 5. -/
def sExp2 : UserSession :=
  { id := 2, user_id := 7, session_token := tokY, refresh_token := none,
    user_agent := none, ip_address := none, is_active := true,
    created_at := 0, expires_at := 5, last_used := 0 }

def db8 : DB := { users := [], sessions := [sExp1, sExp2], next_session_id := 3 }

/-- Claim C8 counterexample: the claim allows the second reap run to use
"the same or a later clock value" and still asserts 0 affected rows.
With sessions expiring at 2 and 5, a first run at instant 3 reaps one
row — and a second run immediately after, at the later instant 10 with
the session set otherwise unchanged, reaps the session that expired in
the interim and returns 1, not 0. -/
theorem C8_counterexample_later_clock_second_run :
    ((cleanup_expired_sessions db8 3).2 = 1) ∧
    ((cleanup_expired_sessions (cleanup_expired_sessions db8 3).1 10).2 = 1) ∧
    ((cleanup_expired_sessions (cleanup_expired_sessions db8 3).1 10).2 ≠ 0) :=
  ⟨rfl, rfl, by decide⟩

/-- Claim C8, amended: `cleanup_expired_sessions db now` flips to inactive
exactly the sessions with `is_active = true` and `expires_at < now`
(leaving identity and expiry unchanged) and returns their count, and it is
idempotent *at an unchanged clock value*: a second run at the same `now`
returns 0.  (With a strictly later clock the second run reaps whatever
expired in the interim.) -/
theorem C8_reap_exact_and_idempotent_at_fixed_now (db : DB) (now : Nat) :
    ((cleanup_expired_sessions db now).2 =
       (db.sessions.filter (fun s => decide (s.expires_at < now) && s.is_active)).length) ∧
    (∀ (i : Nat) (s s' : UserSession), db.sessions[i]? = some s →
       (cleanup_expired_sessions db now).1.sessions[i]? = some s' →
       s'.is_active = (s.is_active && !(decide (s.expires_at < now))) ∧
       s'.id = s.id ∧ s'.expires_at = s.expires_at) ∧
    ((cleanup_expired_sessions (cleanup_expired_sessions db now).1 now).2 = 0) := by
  refine ⟨?_, ?_, ?_⟩
  · simp only [cleanup_expired_sessions]
    rw [List.foldl_count]
    simp
  · intro i s s' h h2
    simp only [cleanup_expired_sessions] at h2
    have h3 := List.getElem?_map_append_of db.sessions
      (fun s => if s.expires_at < now ∧ s.is_active then { s with is_active := false } else s)
      [] i s h
    simp only [List.append_nil] at h3
    rw [h2] at h3
    injection h3 with h4
    subst h4
    by_cases hc : s.expires_at < now ∧ s.is_active
    · simp [hc, hc.1, hc.2]
    · rw [if_neg hc]
      by_cases he : s.expires_at < now
      · have hact : ¬ s.is_active = true := fun ha => hc ⟨he, ha⟩
        simp [he, Bool.eq_false_iff.mpr hact]
      · simp [he]
  · simp only [cleanup_expired_sessions]
    rw [List.foldl_count]
    have hnil : (db.sessions.map (fun s =>
        if s.expires_at < now ∧ s.is_active then { s with is_active := false } else s)).filter
        (fun s => decide (s.expires_at < now) && s.is_active) = [] := by
      rw [List.filter_eq_nil_iff]
      intro x hx
      simp only [List.mem_map] at hx
      obtain ⟨s2, _, hfx⟩ := hx
      subst hfx
      simp only [Bool.and_eq_true, decide_eq_true_eq, not_and]
      intro hlt
      by_cases hc : s2.expires_at < now ∧ s2.is_active
      · simp [hc]
      · rw [if_neg hc] at hlt ⊢
        intro ha
        exact hc ⟨hlt, ha⟩
    rw [hnil]
    simp

/-- Claim C8 witness: at the fixed clock value 3 the immediate second run
over the example store reports 0 affected rows, and the first run flipped
the expired row in place. -/
theorem C8_witness :
    ((cleanup_expired_sessions (cleanup_expired_sessions db8 3).1 3).2 = 0) ∧
    (({ sExp1 with is_active := false } : UserSession).is_active =
       (sExp1.is_active && !(decide (sExp1.expires_at < 3))) ∧
     ({ sExp1 with is_active := false } : UserSession).id = sExp1.id ∧
     ({ sExp1 with is_active := false } : UserSession).expires_at = sExp1.expires_at) :=
  ⟨(C8_reap_exact_and_idempotent_at_fixed_now db8 3).2.2,
   (C8_reap_exact_and_idempotent_at_fixed_now db8 3).2.1 0 sExp1
     { sExp1 with is_active := false } rfl rfl⟩

/-- Claim C9: a session created by `create_user_session` starts active with
`expires_at` fixed to `created_at` plus the refresh-token TTL (days × 86400
seconds) — not the access-token TTL whenever the two differ — and no
operation of the subsystem ever changes a stored session's `expires_at`. -/
theorem C9_session_expiry_fixed (st : Settings) (db : DB) (uid : Nat)
    (at_ rt : Token) (ua ip : Option String) (now : Nat) :
    ((create_user_session st db uid at_ rt ua ip now).1.is_active = true) ∧
    ((create_user_session st db uid at_ rt ua ip now).1.created_at = now) ∧
    ((create_user_session st db uid at_ rt ua ip now).1.expires_at =
       (create_user_session st db uid at_ rt ua ip now).1.created_at +
         st.REFRESH_TOKEN_EXPIRE_DAYS * 86400) ∧
    (st.ACCESS_TOKEN_EXPIRE_MINUTES * 60 ≠ st.REFRESH_TOKEN_EXPIRE_DAYS * 86400 →
       (create_user_session st db uid at_ rt ua ip now).1.expires_at ≠
         (create_user_session st db uid at_ rt ua ip now).1.created_at +
           st.ACCESS_TOKEN_EXPIRE_MINUTES * 60) ∧
    (∀ (op : Op) (db2 : DB) (i : Nat) (s s' : UserSession),
       db2.sessions[i]? = some s → (apply_op st op db2).sessions[i]? = some s' →
       s'.expires_at = s.expires_at) := by
  refine ⟨rfl, rfl, rfl, ?_, ?_⟩
  · intro hne heq
    simp only [create_user_session] at heq
    exact hne (Nat.add_left_cancel heq).symm
  · intro op db2 i s s' h h2
    obtain ⟨s'', h3, hm⟩ := apply_op_pointwise st op db2 i s h
    rw [h2] at h3
    injection h3 with h4
    subst h4
    exact hm.2.2.2.2.2.1

/-- Claim C9 witness: alice's concrete session starts active, its expiry
equals creation plus the refresh TTL and differs from creation plus the
access TTL, and reaping never changes a stored row's expiry. -/
theorem C9_witness :
    ((create_user_session settingsW db0 1 aTok1 rTok1 none none 100).1.is_active = true) ∧
    ((create_user_session settingsW db0 1 aTok1 rTok1 none none 100).1.expires_at ≠
       (create_user_session settingsW db0 1 aTok1 rTok1 none none 100).1.created_at +
         settingsW.ACCESS_TOKEN_EXPIRE_MINUTES * 60) ∧
    (({ sess1 with is_active := false } : UserSession).expires_at = sess1.expires_at) :=
  ⟨(C9_session_expiry_fixed settingsW db0 1 aTok1 rTok1 none none 100).1,
   (C9_session_expiry_fixed settingsW db0 1 aTok1 rTok1 none none 100).2.2.2.1 (by decide),
   (C9_session_expiry_fixed settingsW db0 1 aTok1 rTok1 none none 100).2.2.2.2
     (Op.opCleanup 700000) db1 0 sess1 { sess1 with is_active := false } rfl rfl⟩

/-- Claim C10: `get_current_user` accepts any token that is signed with the
process secret and algorithm, unexpired, and carries a `sub` naming a
stored user — regardless of the `type` claim (so a refresh token passes
where an access token is expected) — and its outcome does not depend on
the session table at all. -/
theorem C10_token_acceptance_ignores_kind_and_sessions
    (st : Settings) (db : DB) (tok : Token) (now : Nat) :
    (∀ (sessions2 : List UserSession) (nsid2 : Nat),
       get_current_user st
           { db with sessions := sessions2, next_session_id := nsid2 } tok now =
         get_current_user st db tok now) ∧
    (∀ (sub : String) (exp : Nat) (ty : String) (user : User),
       tok = { claims := { sub := some sub, exp := exp, type := ty },
               key := st.SECRET_KEY, alg := st.JWT_ALGORITHM } →
       now ≤ exp →
       get_user_by_username db sub = some user →
       get_current_user st db tok now = .ok user) := by
  refine ⟨fun _ _ => rfl, ?_⟩
  intro sub exp ty user htok hle hu
  subst htok
  simp [get_current_user, jwt_decode, Nat.not_lt.mpr hle, hu]

/-- Claim C10 witness: the concrete *refresh* token of alice's login is
accepted by `get_current_user` while her session table is in any state —
here the post-login store. -/
theorem C10_witness :
    (rTok1.claims.type = "refresh") ∧
    (get_current_user settingsW db1 rTok1 200 = .ok alice1) :=
  ⟨rfl,
   (C10_token_acceptance_ignores_kind_and_sessions settingsW db1 rTok1 200).2
     "alice" 604900 "refresh" alice1 rfl (by decide) rfl⟩

end Nova
